import Mathlib

/-
  Shallow embedding of the diesel-sqlite-session boundary layer.

  The native SQLite session engine is treated as a black box: each native
  entry point is modelled by an explicit "outcome" record describing what the
  native call reported (return code, conflict-callback invocations, exported
  buffer).  The Rust functions `conflict_callback`, `apply_impl`,
  `Session::export_changes` and `Session::attach_by_name` are translated
  directly; a resolver closure is modelled as a function from conflict type to
  an outcome that either returns an action or panics (the `catch_unwind`
  boundary in the Rust code observes exactly this distinction).
-/

namespace DieselSqliteSession

/-- Native result code SQLITE_OK (success). -/
def SQLITE_OK : Int := 0

/-- Native result code SQLITE_TOOBIG (= 18), used when a length exceeds limits. -/
def SQLITE_TOOBIG : Int := 18

/-- Native conflict-resolution constant SQLITE_CHANGESET_ABORT (= 2), which
`apply_impl` also tolerates as a return code of the native apply entry point. -/
def SQLITE_CHANGESET_ABORT : Int := 2

/-- Largest value of the C int type used as the native length parameter. -/
def C_INT_MAX : Nat := 2147483647

/-- Largest value of the host usize type (64-bit target). -/
def USIZE_MAX : Nat := 18446744073709551615

/-- Semantic error-code type from errors.rs (`SqliteErrorCode`). -/
inductive SqliteErrorCode where
  | Error
  | Internal
  | Permission
  | Busy
  | Locked
  | NoMemory
  | ReadOnly
  | Schema
  | Misuse
  | Unknown (code : Int)
deriving DecidableEq

/-- Translation of `SqliteErrorCode::from_error` in errors.rs: map a non-zero
native code to the semantic variant, falling back to `Unknown`. -/
def SqliteErrorCode.from_error (code : Int) : SqliteErrorCode :=
  if code = 1 then SqliteErrorCode.Error
  else if code = 2 then SqliteErrorCode.Internal
  else if code = 3 then SqliteErrorCode.Permission
  else if code = 5 then SqliteErrorCode.Busy
  else if code = 6 then SqliteErrorCode.Locked
  else if code = 7 then SqliteErrorCode.NoMemory
  else if code = 8 then SqliteErrorCode.ReadOnly
  else if code = 17 then SqliteErrorCode.Schema
  else if code = 21 then SqliteErrorCode.Misuse
  else SqliteErrorCode.Unknown code

/-- Translation of `SqliteErrorCode::from_raw` in errors.rs: `none` for
SQLITE_OK, otherwise the mapped variant. -/
def SqliteErrorCode.from_raw (code : Int) : Option SqliteErrorCode :=
  if code = 0 then none else some (SqliteErrorCode.from_error code)

/-- Translation of `SqliteErrorCode::to_raw` in errors.rs. -/
def SqliteErrorCode.to_raw : SqliteErrorCode → Int
  | SqliteErrorCode.Error => 1
  | SqliteErrorCode.Internal => 2
  | SqliteErrorCode.Permission => 3
  | SqliteErrorCode.Busy => 5
  | SqliteErrorCode.Locked => 6
  | SqliteErrorCode.NoMemory => 7
  | SqliteErrorCode.ReadOnly => 8
  | SqliteErrorCode.Schema => 17
  | SqliteErrorCode.Misuse => 21
  | SqliteErrorCode.Unknown code => code

/-- Session-side errors from errors.rs (`SessionError`). -/
inductive SessionError where
  | CreateFailed (code : SqliteErrorCode)
  | AttachFailed (code : SqliteErrorCode)
  | ChangesetFailed (code : SqliteErrorCode)
  | PatchsetFailed (code : SqliteErrorCode)
  | InvalidTableName
deriving DecidableEq

/-- Apply-side errors (`ApplyError`).  The `ConflictHandlerPanicked` variant is
the one constructed in apply.rs and matched in mobile_smoke.rs; it realises the
conflict-handler-failure error the documentation calls ConflictHandlerFailed. -/
inductive ApplyError where
  | ApplyFailed (code : SqliteErrorCode)
  | ConflictAborted
  | ConflictHandlerPanicked
deriving DecidableEq

/-- Conflict taxonomy from errors.rs (`ConflictType`). -/
inductive ConflictType where
  | Data
  | NotFound
  | Conflict
  | Constraint
  | ForeignKey
deriving DecidableEq

/-- Translation of `ConflictType::from_raw` in errors.rs. -/
def ConflictType.from_raw (code : Int) : Option ConflictType :=
  if code = 1 then some ConflictType.Data
  else if code = 2 then some ConflictType.NotFound
  else if code = 3 then some ConflictType.Conflict
  else if code = 4 then some ConflictType.Constraint
  else if code = 5 then some ConflictType.ForeignKey
  else none

/-- Translation of `ConflictType::to_raw` in errors.rs. -/
def ConflictType.to_raw : ConflictType → Int
  | ConflictType.Data => 1
  | ConflictType.NotFound => 2
  | ConflictType.Conflict => 3
  | ConflictType.Constraint => 4
  | ConflictType.ForeignKey => 5

/-- Conflict resolutions from errors.rs (`ConflictAction`). -/
inductive ConflictAction where
  | Omit
  | Replace
  | Abort
deriving DecidableEq

/-- Translation of `ConflictAction::to_raw` in errors.rs. -/
def ConflictAction.to_raw : ConflictAction → Int
  | ConflictAction.Omit => 0
  | ConflictAction.Replace => 1
  | ConflictAction.Abort => 2

/-- Outcome of one invocation of the resolver closure: either it returns a
resolution, or it panics (which `catch_unwind` observes as `Err`). -/
inductive HandlerOutcome where
  | returns (action : ConflictAction)
  | panics
deriving DecidableEq

/-- The shared callback context from apply.rs (`ConflictContext`), holding the
flags the callback records for `apply_impl` to inspect after the native call. -/
structure ConflictContext where
  aborted : Bool
  panicked : Bool
deriving DecidableEq

/-- Translation of `conflict_callback` in apply.rs.  Given the resolver, the
current context and the raw conflict code supplied by the native engine, it
yields the updated context and the raw resolution code returned to the native
engine.  An unknown conflict code maps to `Abort` without consulting the
resolver (`ConflictType::from_raw` is `none` and `map_or` supplies the
default); a panicking resolver is caught and mapped to `Abort` with the
`panicked` flag set; any `Abort` resolution sets the `aborted` flag. -/
def conflict_callback (handler : ConflictType → HandlerOutcome)
    (ctx : ConflictContext) (conflict_type : Int) : ConflictContext × Int :=
  let step : ConflictContext × ConflictAction :=
    match ConflictType.from_raw conflict_type with
    | none => (ctx, ConflictAction.Abort)
    | some conflict =>
      match handler conflict with
      | HandlerOutcome.returns action => (ctx, action)
      | HandlerOutcome.panics => ({ ctx with panicked := true }, ConflictAction.Abort)
  let ctx1 := step.1
  let action := step.2
  let ctx2 := if action = ConflictAction.Abort then { ctx1 with aborted := true } else ctx1
  (ctx2, action.to_raw)

/-- The sequence of conflict-callback invocations performed by one native
`sqlite3changeset_apply` call, threading the shared context through
`conflict_callback` exactly as the native engine does. -/
def run_callbacks (handler : ConflictType → HandlerOutcome) (ctx : ConflictContext) :
    List Int → ConflictContext
  | [] => ctx
  | c :: cs => run_callbacks handler (conflict_callback handler ctx c).1 cs

/-- Black-box behaviour of one call to the native apply entry point: the raw
conflict codes it feeds to the callback, in order, and its own return code. -/
structure NativeApplyOutcome where
  conflicts : List Int
  rc : Int
deriving DecidableEq

/-- `c_int::try_from` on a usize length: succeeds iff the value fits C int. -/
def c_int_try_from (n : Nat) : Option Int :=
  if n ≤ C_INT_MAX then some (Int.ofNat n) else none

/-- Translation of `apply_impl` in apply.rs.  `data` is the diff buffer; the
native apply call is the black box `native`; empty input short-circuits to
success before any native interaction; a length that does not fit C int fails
with `ApplyFailed(SQLITE_TOOBIG)` before any native interaction; otherwise the
callback context is threaded through the native call's conflict invocations
and inspected in order: panicked, then aborted, then the native return code
(tolerating SQLITE_OK and SQLITE_CHANGESET_ABORT). -/
def apply_impl (data : List Nat) (handler : ConflictType → HandlerOutcome)
    (native : NativeApplyOutcome) : Except ApplyError Unit :=
  if data.isEmpty then Except.ok ()
  else
    match c_int_try_from data.length with
    | none => Except.error (ApplyError.ApplyFailed (SqliteErrorCode.from_error SQLITE_TOOBIG))
    | some _ =>
      let ctx := run_callbacks handler { aborted := false, panicked := false } native.conflicts
      if ctx.panicked then Except.error ApplyError.ConflictHandlerPanicked
      else if ctx.aborted then Except.error ApplyError.ConflictAborted
      else if native.rc ≠ SQLITE_OK ∧ native.rc ≠ SQLITE_CHANGESET_ABORT then
        Except.error (ApplyError.ApplyFailed (SqliteErrorCode.from_error native.rc))
      else Except.ok ()

/-- `apply_changeset` in apply.rs delegates to `apply_impl`. -/
def apply_changeset (data : List Nat) (handler : ConflictType → HandlerOutcome)
    (native : NativeApplyOutcome) : Except ApplyError Unit :=
  apply_impl data handler native

/-- `apply_patchset` in apply.rs delegates to `apply_impl`. -/
def apply_patchset (data : List Nat) (handler : ConflictType → HandlerOutcome)
    (native : NativeApplyOutcome) : Except ApplyError Unit :=
  apply_impl data handler native

/-- Black-box behaviour of one call to a native session export entry point:
its return code and the (size, buffer) pair it wrote through the out-pointers.
`buffer = none` models a null pointer; `some bytes` models a non-null native
allocation holding `bytes`. -/
structure ExportOutcome where
  rc : Int
  size : Int
  buffer : Option (List Nat)
deriving DecidableEq

/-- `usize::try_from` on a C int value: succeeds iff the value is in range. -/
def usize_try_from (i : Int) : Option Nat :=
  if 0 ≤ i ∧ i ≤ Int.ofNat USIZE_MAX then some i.toNat else none

/-- Translation of `Session::export_changes` in session.rs.  The first
component is the returned result; the second counts how many times
`sqlite3_free` is called on the native buffer.  A non-success return code
maps through `map_error` and returns before the free; otherwise a
non-positive size or null buffer yields an empty owned vector, a failing
size conversion yields `map_error(Unknown(size))`, and the success path
copies exactly `size` bytes out of the native buffer; in the latter three
cases the buffer, when non-null, is freed exactly once after the copy. -/
def export_changes (map_error : SqliteErrorCode → SessionError)
    (native : ExportOutcome) : Except SessionError (List Nat) × Nat :=
  if native.rc ≠ SQLITE_OK then
    (Except.error (map_error (SqliteErrorCode.from_error native.rc)), 0)
  else
    let result : Except SessionError (List Nat) :=
      if native.size ≤ 0 ∨ native.buffer = none then Except.ok []
      else
        match usize_try_from native.size with
        | none => Except.error (map_error (SqliteErrorCode.Unknown native.size))
        | some byte_len => Except.ok ((native.buffer.getD []).take byte_len)
    let frees := if native.buffer = none then 0 else 1
    (result, frees)

/-- `Session::changeset` delegates to `export_changes` with `ChangesetFailed`. -/
def changeset (native : ExportOutcome) : Except SessionError (List Nat) × Nat :=
  export_changes SessionError.ChangesetFailed native

/-- `Session::patchset` delegates to `export_changes` with `PatchsetFailed`. -/
def patchset (native : ExportOutcome) : Except SessionError (List Nat) × Nat :=
  export_changes SessionError.PatchsetFailed native

/-- Translation of `Session::attach_by_name` in session.rs.  The table name is
a byte sequence; `CString::new` fails exactly when the bytes contain an
embedded NUL, mapped to `InvalidTableName` before any native call.  Otherwise
the native attach entry point runs and its return code (`native_rc`) decides
between success and `AttachFailed`. -/
def attach_by_name (table : List Nat) (native_rc : Int) : Except SessionError Unit :=
  if (0 : Nat) ∈ table then Except.error SessionError.InvalidTableName
  else if native_rc ≠ SQLITE_OK then
    Except.error (SessionError.AttachFailed (SqliteErrorCode.from_error native_rc))
  else Except.ok ()

/-
  Helper lemmas about the callback flags.  The flags on the shared context are
  monotone: once set by one invocation they are never cleared by a later one.
-/

/-- One callback invocation never clears the `panicked` flag. -/
lemma conflict_callback_panicked_mono (handler : ConflictType → HandlerOutcome)
    (ctx : ConflictContext) (c : Int) (h : ctx.panicked = true) :
    (conflict_callback handler ctx c).1.panicked = true := by
  cases hfr : ConflictType.from_raw c with
  | none => simp [conflict_callback, hfr, h]
  | some ct =>
    cases hh : handler ct with
    | returns a => cases a <;> simp [conflict_callback, hfr, hh, h]
    | panics => simp [conflict_callback, hfr, hh]

/-- One callback invocation never clears the `aborted` flag. -/
lemma conflict_callback_aborted_mono (handler : ConflictType → HandlerOutcome)
    (ctx : ConflictContext) (c : Int) (h : ctx.aborted = true) :
    (conflict_callback handler ctx c).1.aborted = true := by
  cases hfr : ConflictType.from_raw c with
  | none => simp [conflict_callback, hfr, h]
  | some ct =>
    cases hh : handler ct with
    | returns a => cases a <;> simp [conflict_callback, hfr, hh, h]
    | panics => simp [conflict_callback, hfr, hh]

/-- A whole run of callback invocations never clears the `panicked` flag. -/
lemma run_callbacks_panicked_mono (handler : ConflictType → HandlerOutcome)
    (cs : List Int) (ctx : ConflictContext) (h : ctx.panicked = true) :
    (run_callbacks handler ctx cs).panicked = true := by
  induction cs generalizing ctx with
  | nil => exact h
  | cons d ds ih =>
    exact ih _ (conflict_callback_panicked_mono handler ctx d h)

/-- A whole run of callback invocations never clears the `aborted` flag. -/
lemma run_callbacks_aborted_mono (handler : ConflictType → HandlerOutcome)
    (cs : List Int) (ctx : ConflictContext) (h : ctx.aborted = true) :
    (run_callbacks handler ctx cs).aborted = true := by
  induction cs generalizing ctx with
  | nil => exact h
  | cons d ds ih =>
    exact ih _ (conflict_callback_aborted_mono handler ctx d h)

/-- If some invocation in the run maps to a known conflict on which the
resolver panics, the final context has the `panicked` flag set. -/
lemma run_callbacks_panicked_of_trigger (handler : ConflictType → HandlerOutcome)
    (cs : List Int) (ctx : ConflictContext) (c : Int) (hc : c ∈ cs)
    (ct : ConflictType) (hct : ConflictType.from_raw c = some ct)
    (hp : handler ct = HandlerOutcome.panics) :
    (run_callbacks handler ctx cs).panicked = true := by
  induction cs generalizing ctx with
  | nil => cases hc
  | cons d ds ih =>
    rcases List.mem_cons.mp hc with rfl | hmem
    · exact run_callbacks_panicked_mono handler ds _
        (by simp [conflict_callback, hct, hp])
    · exact ih _ hmem

/-- Unfolding of `apply_impl` on non-empty input whose length fits C int. -/
lemma apply_impl_nonempty_fits (data : List Nat) (handler : ConflictType → HandlerOutcome)
    (native : NativeApplyOutcome) (h1 : data ≠ []) (h2 : data.length ≤ C_INT_MAX) :
    apply_impl data handler native =
      (if (run_callbacks handler { aborted := false, panicked := false } native.conflicts).panicked
       then Except.error ApplyError.ConflictHandlerPanicked
       else if (run_callbacks handler { aborted := false, panicked := false } native.conflicts).aborted
       then Except.error ApplyError.ConflictAborted
       else if native.rc ≠ SQLITE_OK ∧ native.rc ≠ SQLITE_CHANGESET_ABORT
       then Except.error (ApplyError.ApplyFailed (SqliteErrorCode.from_error native.rc))
       else Except.ok ()) := by
  cases data with
  | nil => exact absurd rfl h1
  | cons a l =>
    simp only [apply_impl, c_int_try_from, List.isEmpty_cons, Bool.false_eq_true,
      if_false, if_pos h2]

/-- A resolver that panics on every invocation (concrete witness input). -/
def always_panics : ConflictType → HandlerOutcome :=
  fun _ => HandlerOutcome.panics

/-- A resolver that returns `Abort` on every invocation (concrete witness input). -/
def always_aborts : ConflictType → HandlerOutcome :=
  fun _ => HandlerOutcome.returns ConflictAction.Abort

/-- A resolver that returns `Replace` on every invocation (concrete witness input). -/
def always_replaces : ConflictType → HandlerOutcome :=
  fun _ => HandlerOutcome.returns ConflictAction.Replace

/-- A resolver that returns `Omit` on every invocation (concrete witness input). -/
def always_omits : ConflictType → HandlerOutcome :=
  fun _ => HandlerOutcome.returns ConflictAction.Omit

/-- C1: if the resolver panics during some conflict-callback invocation, the
callback catches the panic at the boundary and returns the Abort resolution
code to the native engine, and after the native call returns the overall
apply operation (changeset and patchset alike) fails with the distinct
conflict-handler-failure error, `ConflictHandlerPanicked` (the error the
documentation names ConflictHandlerFailed). -/
theorem panicking_resolver_yields_handler_failure
    (data : List Nat) (handler : ConflictType → HandlerOutcome)
    (native : NativeApplyOutcome)
    (h1 : data ≠ []) (h2 : data.length ≤ C_INT_MAX)
    (c : Int) (hc : c ∈ native.conflicts) (ct : ConflictType)
    (hct : ConflictType.from_raw c = some ct)
    (hp : handler ct = HandlerOutcome.panics) :
    (∀ ctx : ConflictContext,
        (conflict_callback handler ctx c).2 = ConflictAction.Abort.to_raw) ∧
    apply_changeset data handler native
        = Except.error ApplyError.ConflictHandlerPanicked ∧
    apply_patchset data handler native
        = Except.error ApplyError.ConflictHandlerPanicked := by
  have hpan : (run_callbacks handler { aborted := false, panicked := false }
      native.conflicts).panicked = true :=
    run_callbacks_panicked_of_trigger handler native.conflicts _ c hc ct hct hp
  have happly : apply_impl data handler native
      = Except.error ApplyError.ConflictHandlerPanicked := by
    rw [apply_impl_nonempty_fits data handler native h1 h2]
    simp [hpan]
  refine ⟨?_, happly, happly⟩
  intro ctx
  simp [conflict_callback, hct, hp]

/-- Witness for C1 at a concrete diff, resolver and native trace. -/
theorem panicking_resolver_yields_handler_failure_witness :
    (∀ ctx : ConflictContext,
        (conflict_callback always_panics ctx 1).2 = ConflictAction.Abort.to_raw) ∧
    apply_changeset [7] always_panics { conflicts := [1], rc := 0 }
        = Except.error ApplyError.ConflictHandlerPanicked ∧
    apply_patchset [7] always_panics { conflicts := [1], rc := 0 }
        = Except.error ApplyError.ConflictHandlerPanicked :=
  panicking_resolver_yields_handler_failure [7] always_panics
    { conflicts := [1], rc := 0 } (by decide) (by decide)
    1 (by decide) ConflictType.Data (by decide) rfl

/-- C2 counterexample: one invocation whose resolution is Abort implicitly via
a resolver failure (the callback returns the Abort resolution code), and the
native apply call reports success, yet the operation does not fail with
`ConflictAborted` — it fails with the handler-failure error instead. -/
theorem abort_via_panic_is_not_conflict_aborted :
    (conflict_callback always_panics { aborted := false, panicked := false } 1).2
        = ConflictAction.Abort.to_raw ∧
    apply_changeset [7] always_panics { conflicts := [1], rc := 0 }
        = Except.error ApplyError.ConflictHandlerPanicked ∧
    apply_changeset [7] always_panics { conflicts := [1], rc := 0 }
        ≠ Except.error ApplyError.ConflictAborted := by
  refine ⟨rfl, rfl, ?_⟩
  intro h
  have : ApplyError.ConflictHandlerPanicked = ApplyError.ConflictAborted := by
    have h0 : apply_changeset [7] always_panics { conflicts := [1], rc := 0 }
        = Except.error ApplyError.ConflictHandlerPanicked := rfl
    rw [h0] at h
    exact Except.error.inj h
  exact absurd this (by simp)

/-- C2 (amended): if the resolution of at least one conflict-callback
invocation is Abort and no invocation recorded a resolver failure, then the
apply operation fails with `ConflictAborted` even when the native apply entry
point returns a success code; when a resolver failure was recorded, the
handler-failure error takes precedence instead. -/
theorem explicit_abort_without_panic_yields_conflict_aborted
    (data : List Nat) (handler : ConflictType → HandlerOutcome)
    (native : NativeApplyOutcome)
    (h1 : data ≠ []) (h2 : data.length ≤ C_INT_MAX)
    (ha : (run_callbacks handler { aborted := false, panicked := false }
        native.conflicts).aborted = true)
    (hp : (run_callbacks handler { aborted := false, panicked := false }
        native.conflicts).panicked = false) :
    apply_changeset data handler native = Except.error ApplyError.ConflictAborted ∧
    apply_patchset data handler native = Except.error ApplyError.ConflictAborted := by
  have happly : apply_impl data handler native
      = Except.error ApplyError.ConflictAborted := by
    rw [apply_impl_nonempty_fits data handler native h1 h2]
    simp [ha, hp]
  exact ⟨happly, happly⟩

/-- Witness for the amended C2: a resolver that aborts explicitly, with the
native apply call reporting success. -/
theorem explicit_abort_without_panic_yields_conflict_aborted_witness :
    apply_changeset [7] always_aborts { conflicts := [1], rc := 0 }
        = Except.error ApplyError.ConflictAborted ∧
    apply_patchset [7] always_aborts { conflicts := [1], rc := 0 }
        = Except.error ApplyError.ConflictAborted :=
  explicit_abort_without_panic_yields_conflict_aborted [7] always_aborts
    { conflicts := [1], rc := 0 } (by decide) (by decide) (by decide) (by decide)

/-- Helper for C3: a code outside the known conflict taxonomy is mapped to
`none` by the Error Model. -/
lemma from_raw_eq_none_of_not_mem (c : Int)
    (h : c ∉ ([1, 2, 3, 4, 5] : List Int)) : ConflictType.from_raw c = none := by
  simp only [List.mem_cons, List.not_mem_nil, or_false, not_or] at h
  obtain ⟨h1, h2, h3, h4, h5⟩ := h
  simp [ConflictType.from_raw, h1, h2, h3, h4, h5]

/-- C3: a native conflict code outside the known taxonomy 1..5 is handled
conservatively: for every resolver and context the callback returns the Abort
resolution code and sets the aborted flag (so processing never silently
continues), without consulting the resolver (the result is the same for all
resolvers) and without recording a resolver failure. -/
theorem unknown_conflict_code_aborts_conservatively
    (c : Int) (h : c ∉ ([1, 2, 3, 4, 5] : List Int))
    (handler : ConflictType → HandlerOutcome) (ctx : ConflictContext) :
    (conflict_callback handler ctx c).2 = ConflictAction.Abort.to_raw ∧
    (conflict_callback handler ctx c).1.aborted = true ∧
    (conflict_callback handler ctx c).1.panicked = ctx.panicked := by
  have hfr := from_raw_eq_none_of_not_mem c h
  refine ⟨?_, ?_, ?_⟩ <;> simp [conflict_callback, hfr]

/-- Witness for C3 at the unrecognized conflict code 999. -/
theorem unknown_conflict_code_aborts_conservatively_witness :
    (conflict_callback always_replaces { aborted := false, panicked := false } 999).2
        = ConflictAction.Abort.to_raw ∧
    (conflict_callback always_replaces { aborted := false, panicked := false } 999).1.aborted
        = true ∧
    (conflict_callback always_replaces { aborted := false, panicked := false } 999).1.panicked
        = ({ aborted := false, panicked := false } : ConflictContext).panicked :=
  unknown_conflict_code_aborts_conservatively 999 (by decide) always_replaces
    { aborted := false, panicked := false }

/-- C4: applying an empty diff succeeds for every resolver and every native
behaviour; since the result is the constant success for all resolvers and all
native outcomes, neither the native apply entry point nor the resolver is ever
consulted. -/
theorem apply_empty_diff_is_noop_success
    (handler handler2 : ConflictType → HandlerOutcome)
    (native native2 : NativeApplyOutcome) :
    apply_changeset [] handler native = Except.ok () ∧
    apply_patchset [] handler native = Except.ok () ∧
    apply_changeset [] handler native = apply_changeset [] handler2 native2 :=
  ⟨rfl, rfl, rfl⟩

/-- C5: when the native export call succeeds, a non-positive size or null
buffer yields the empty owned buffer as a valid result (not an error), and
otherwise the routine returns an owned buffer holding exactly `size` bytes
copied from the front of the native buffer. -/
theorem export_success_returns_exact_copy
    (m : SqliteErrorCode → SessionError) (native : ExportOutcome)
    (hrc : native.rc = SQLITE_OK) :
    ((native.size ≤ 0 ∨ native.buffer = none) →
        (export_changes m native).1 = Except.ok []) ∧
    (∀ b : List Nat, native.buffer = some b → 0 < native.size →
      native.size ≤ Int.ofNat C_INT_MAX →
        (export_changes m native).1 = Except.ok (b.take native.size.toNat) ∧
        (native.size.toNat ≤ b.length →
          (b.take native.size.toNat).length = native.size.toNat)) := by
  constructor
  · intro h
    simp [export_changes, hrc, h]
  · intro b hb hpos hfits
    have hns : ¬native.size ≤ 0 := by omega
    have hbn : native.buffer ≠ none := by rw [hb]; exact Option.some_ne_none b
    have husize : usize_try_from native.size = some native.size.toNat := by
      have hle : native.size ≤ (USIZE_MAX : Int) := by
        refine le_trans hfits ?_
        decide
      simp [usize_try_from, le_of_lt hpos, hle]
    constructor
    · simp [export_changes, hrc, hns, hbn, husize, hb]
    · intro hlen
      simp [List.length_take, Nat.min_eq_left hlen]

/-- Witness for C5: both the null-buffer branch and the copy branch at
concrete native outcomes. -/
theorem export_success_returns_exact_copy_witness :
    (export_changes SessionError.ChangesetFailed
        { rc := 0, size := 0, buffer := none }).1 = Except.ok [] ∧
    (export_changes SessionError.ChangesetFailed
        { rc := 0, size := 2, buffer := some [9, 8, 7] }).1
      = Except.ok (([9, 8, 7] : List Nat).take (Int.toNat 2)) ∧
    (([9, 8, 7] : List Nat).take (Int.toNat 2)).length = Int.toNat 2 := by
  have h1 := (export_success_returns_exact_copy SessionError.ChangesetFailed
    { rc := 0, size := 0, buffer := none } rfl).1 (by decide)
  have h2 := (export_success_returns_exact_copy SessionError.ChangesetFailed
    { rc := 0, size := 2, buffer := some [9, 8, 7] } rfl).2 [9, 8, 7]
    rfl (by decide) (by decide)
  exact ⟨h1, h2.1, h2.2 (by decide)⟩

/-- C6: under the native contract that a failing export zeroes its outputs,
every path on which the export call produced a non-null buffer releases that
buffer exactly once (the free counter is 1), including the path on which the
size-to-host-length conversion fails; a non-success native result returns
exactly the mapped typed error with no buffer ever produced, and the
conversion-failure path returns exactly the typed unknown-code error. -/
theorem export_frees_native_buffer_once
    (m : SqliteErrorCode → SessionError) (native : ExportOutcome)
    (hcontract : native.rc ≠ SQLITE_OK → native.buffer = none) :
    (∀ b : List Nat, native.buffer = some b → (export_changes m native).2 = 1) ∧
    (native.rc ≠ SQLITE_OK →
      export_changes m native
        = (Except.error (m (SqliteErrorCode.from_error native.rc)), 0)) ∧
    (native.rc = SQLITE_OK → 0 < native.size → native.buffer ≠ none →
      usize_try_from native.size = none →
      export_changes m native
        = (Except.error (m (SqliteErrorCode.Unknown native.size)), 1)) := by
  refine ⟨?_, ?_, ?_⟩
  · intro b hb
    have hrc : native.rc = SQLITE_OK := by
      by_contra hne
      rw [hcontract hne] at hb
      cases hb
    simp [export_changes, hrc, hb]
  · intro hne
    simp [export_changes, hne]
  · intro hrc hpos hbuf hconv
    have hns : ¬native.size ≤ 0 := by omega
    simp [export_changes, hrc, hns, hbuf, hconv]

/-- Native export outcome exercising the size-conversion-failure path: the
reported size exceeds the host length range while the buffer is non-null. -/
def oversize_export : ExportOutcome :=
  { rc := 0, size := 1180591620717411303424, buffer := some [5] }

/-- Witness for C6: on the conversion-failure path the buffer is freed exactly
once and only the typed error is returned. -/
theorem export_frees_native_buffer_once_witness :
    (export_changes SessionError.PatchsetFailed oversize_export).2 = 1 ∧
    export_changes SessionError.PatchsetFailed oversize_export
      = (Except.error (SessionError.PatchsetFailed
          (SqliteErrorCode.Unknown 1180591620717411303424)), 1) := by
  have h := export_frees_native_buffer_once SessionError.PatchsetFailed
    oversize_export (by intro hne; exact absurd rfl hne)
  exact ⟨h.1 [5] rfl, h.2.2 rfl (by decide) (by decide) (by decide)⟩

/-- C7: a table name containing an embedded NUL byte is rejected locally with
`InvalidTableName`, uniformly in whatever the native attach call would have
returned (so no native call is consulted); a NUL-free name succeeds exactly
when the native attach call succeeds and otherwise yields `AttachFailed`
carrying the mapped native code. -/
theorem attach_by_name_validates_locally_then_maps_native (table : List Nat) :
    ((0 : Nat) ∈ table → ∀ rc : Int,
        attach_by_name table rc = Except.error SessionError.InvalidTableName) ∧
    ((0 : Nat) ∉ table →
      attach_by_name table SQLITE_OK = Except.ok () ∧
      ∀ rc : Int, rc ≠ SQLITE_OK →
        attach_by_name table rc
          = Except.error (SessionError.AttachFailed (SqliteErrorCode.from_error rc))) := by
  refine ⟨?_, ?_⟩
  · intro h rc
    simp [attach_by_name, h]
  · intro h
    refine ⟨by simp [attach_by_name, h], ?_⟩
    intro rc hrc
    simp [attach_by_name, h, hrc]

/-- Witness for C7: a name with an embedded NUL, and a NUL-free name under a
succeeding and a failing native attach call. -/
theorem attach_by_name_validates_locally_then_maps_native_witness :
    attach_by_name [98, 0, 99] 0 = Except.error SessionError.InvalidTableName ∧
    attach_by_name [98, 99] SQLITE_OK = Except.ok () ∧
    attach_by_name [98, 99] 5
      = Except.error (SessionError.AttachFailed (SqliteErrorCode.from_error 5)) :=
  ⟨(attach_by_name_validates_locally_then_maps_native [98, 0, 99]).1 (by decide) 0,
   ((attach_by_name_validates_locally_then_maps_native [98, 99]).2 (by decide)).1,
   ((attach_by_name_validates_locally_then_maps_native [98, 99]).2 (by decide)).2 5 (by decide)⟩

/-- C8: a diff whose byte length does not fit the C int length parameter makes
the apply operation fail with `ApplyFailed(SQLITE_TOOBIG)`; the outcome is the
same for every native behaviour and resolver, so the failure happens before
any native call, and no truncated length is ever passed on. -/
theorem oversized_diff_fails_fast_with_toobig
    (data : List Nat) (handler handler2 : ConflictType → HandlerOutcome)
    (native native2 : NativeApplyOutcome)
    (h : C_INT_MAX < data.length) :
    apply_changeset data handler native
        = Except.error (ApplyError.ApplyFailed (SqliteErrorCode.from_error SQLITE_TOOBIG)) ∧
    apply_patchset data handler native
        = Except.error (ApplyError.ApplyFailed (SqliteErrorCode.from_error SQLITE_TOOBIG)) ∧
    apply_changeset data handler native = apply_changeset data handler2 native2 := by
  have key : ∀ (hh : ConflictType → HandlerOutcome) (nn : NativeApplyOutcome),
      apply_impl data hh nn
        = Except.error (ApplyError.ApplyFailed (SqliteErrorCode.from_error SQLITE_TOOBIG)) := by
    intro hh nn
    cases data with
    | nil => simp [C_INT_MAX] at h
    | cons a l =>
      have hnofit : ¬((a :: l).length ≤ C_INT_MAX) := Nat.not_le.mpr h
      simp only [apply_impl, c_int_try_from, List.isEmpty_cons, Bool.false_eq_true,
        if_false, if_neg hnofit]
  refine ⟨key handler native, key handler native, ?_⟩
  rw [show apply_changeset data handler native = apply_impl data handler native from rfl,
    show apply_changeset data handler2 native2 = apply_impl data handler2 native2 from rfl,
    key handler native, key handler2 native2]

/-- Witness for C8 at a diff one byte longer than the C int range. -/
theorem oversized_diff_fails_fast_with_toobig_witness :
    apply_changeset (List.replicate (C_INT_MAX + 1) 0) always_replaces
        { conflicts := [1], rc := 0 }
      = Except.error (ApplyError.ApplyFailed (SqliteErrorCode.from_error SQLITE_TOOBIG)) ∧
    apply_patchset (List.replicate (C_INT_MAX + 1) 0) always_replaces
        { conflicts := [1], rc := 0 }
      = Except.error (ApplyError.ApplyFailed (SqliteErrorCode.from_error SQLITE_TOOBIG)) ∧
    apply_changeset (List.replicate (C_INT_MAX + 1) 0) always_replaces
        { conflicts := [1], rc := 0 }
      = apply_changeset (List.replicate (C_INT_MAX + 1) 0) always_omits
        { conflicts := [2], rc := 5 } :=
  oversized_diff_fails_fast_with_toobig (List.replicate (C_INT_MAX + 1) 0)
    always_replaces always_omits { conflicts := [1], rc := 0 } { conflicts := [2], rc := 5 }
    (by rw [List.length_replicate]; exact Nat.lt_succ_self C_INT_MAX)

/-- C9: on a non-empty fitting diff where no invocation recorded a panic and
none recorded Abort, a native return code outside the tolerated pair
SQLITE_OK / SQLITE_CHANGESET_ABORT yields `ApplyFailed` carrying the mapped
native code, while either tolerated code yields success. -/
theorem clean_native_failure_maps_to_apply_failed
    (data : List Nat) (handler : ConflictType → HandlerOutcome)
    (native : NativeApplyOutcome)
    (h1 : data ≠ []) (h2 : data.length ≤ C_INT_MAX)
    (hp : (run_callbacks handler { aborted := false, panicked := false }
        native.conflicts).panicked = false)
    (ha : (run_callbacks handler { aborted := false, panicked := false }
        native.conflicts).aborted = false) :
    (native.rc ≠ SQLITE_OK → native.rc ≠ SQLITE_CHANGESET_ABORT →
      apply_changeset data handler native
        = Except.error (ApplyError.ApplyFailed (SqliteErrorCode.from_error native.rc)) ∧
      apply_patchset data handler native
        = Except.error (ApplyError.ApplyFailed (SqliteErrorCode.from_error native.rc))) ∧
    (native.rc = SQLITE_OK ∨ native.rc = SQLITE_CHANGESET_ABORT →
      apply_changeset data handler native = Except.ok () ∧
      apply_patchset data handler native = Except.ok ()) := by
  have hbase := apply_impl_nonempty_fits data handler native h1 h2
  constructor
  · intro hok habort
    have happly : apply_impl data handler native
        = Except.error (ApplyError.ApplyFailed (SqliteErrorCode.from_error native.rc)) := by
      rw [hbase]
      simp [hp, ha, hok, habort]
    exact ⟨happly, happly⟩
  · intro hsucc
    have happly : apply_impl data handler native = Except.ok () := by
      rw [hbase]
      rcases hsucc with hrc | hrc <;> simp [hp, ha, hrc]
    exact ⟨happly, happly⟩

/-- Native apply outcome used by the C9 witness: one cleanly omitted conflict
followed by a failing native return code SQLITE_NOMEM. -/
def failing_native : NativeApplyOutcome :=
  { conflicts := [1], rc := 7 }

/-- Witness for C9: a clean run with native code 7 maps to
`ApplyFailed(NoMemory)`. -/
theorem clean_native_failure_maps_to_apply_failed_witness :
    apply_changeset [3] always_omits failing_native
      = Except.error (ApplyError.ApplyFailed (SqliteErrorCode.from_error 7)) ∧
    apply_patchset [3] always_omits failing_native
      = Except.error (ApplyError.ApplyFailed (SqliteErrorCode.from_error 7)) :=
  (clean_native_failure_maps_to_apply_failed [3] always_omits failing_native
    (by decide) (by decide) (by decide) (by decide)).1 (by decide) (by decide)

/-- C10: the outcome of one apply call on non-empty fitting input follows a
fixed precedence over the shared callback context: a recorded panic yields
the handler-failure error regardless of the abort flag and of the native
return code; otherwise a recorded Abort yields `ConflictAborted` regardless
of the native return code; only with both flags clear does the native return
code decide between success and `ApplyFailed`. -/
theorem apply_outcome_precedence
    (data : List Nat) (handler : ConflictType → HandlerOutcome)
    (native : NativeApplyOutcome)
    (h1 : data ≠ []) (h2 : data.length ≤ C_INT_MAX) :
    ((run_callbacks handler { aborted := false, panicked := false }
        native.conflicts).panicked = true →
      apply_impl data handler native
        = Except.error ApplyError.ConflictHandlerPanicked) ∧
    ((run_callbacks handler { aborted := false, panicked := false }
        native.conflicts).panicked = false →
     (run_callbacks handler { aborted := false, panicked := false }
        native.conflicts).aborted = true →
      apply_impl data handler native = Except.error ApplyError.ConflictAborted) ∧
    ((run_callbacks handler { aborted := false, panicked := false }
        native.conflicts).panicked = false →
     (run_callbacks handler { aborted := false, panicked := false }
        native.conflicts).aborted = false →
      ((native.rc ≠ SQLITE_OK ∧ native.rc ≠ SQLITE_CHANGESET_ABORT →
        apply_impl data handler native
          = Except.error (ApplyError.ApplyFailed (SqliteErrorCode.from_error native.rc))) ∧
       (native.rc = SQLITE_OK ∨ native.rc = SQLITE_CHANGESET_ABORT →
        apply_impl data handler native = Except.ok ()))) := by
  have hbase := apply_impl_nonempty_fits data handler native h1 h2
  refine ⟨?_, ?_, ?_⟩
  · intro hpan
    rw [hbase]
    simp [hpan]
  · intro hpan hab
    rw [hbase]
    simp [hpan, hab]
  · intro hpan hab
    constructor
    · intro hrc
      rw [hbase]
      simp [hpan, hab, hrc.1, hrc.2]
    · intro hrc
      rw [hbase]
      rcases hrc with hrc | hrc <;> simp [hpan, hab, hrc]

/-- Witness for C10: a panicking resolver with an aborted flag also set and a
failing native return code still yields the handler-failure error. -/
theorem apply_outcome_precedence_witness :
    apply_impl [1, 2] always_panics { conflicts := [2], rc := 7 }
      = Except.error ApplyError.ConflictHandlerPanicked :=
  (apply_outcome_precedence [1, 2] always_panics { conflicts := [2], rc := 7 }
    (by decide) (by decide)).1 (by decide)

end DieselSqliteSession
